import Mathlib

/-!
Verification of the SkateHubba game-state machine
(`functions/src/index.ts`, `functions/src/schema.ts`).

The Firestore callable handlers are embedded as pure functions: each
transaction body becomes a function from the loaded `GameDoc` (plus the
caller's uid and the request payload) to `Except Err GameDoc`, where the
`ok` result is the document after the transaction's partial update has
been merged.  Timestamps are modelled as `Nat`.  Rate limiting, CORS and
the surrounding Firebase plumbing are out of scope of the claims.
-/

namespace SkateHubba

/-- Player slot, `playerKeySchema = z.enum(['A','B'])`. -/
inductive PlayerKey
  | A
  | B
deriving DecidableEq, Repr

/-- Game phase, `phaseSchema`. -/
inductive Phase
  | SET_RECORD
  | SET_JUDGE
  | RESP_RECORD
  | RESP_JUDGE
deriving DecidableEq, Repr

/-- History entry result tag, `historyEntrySchema.result`. -/
inductive HistResult
  | declined_set
  | approved_set
  | landed
  | failed
deriving DecidableEq, Repr

/-- `playerSchema`: uid, display name, accumulated letters. -/
structure PlayerState where
  uid : String
  name : String
  letters : String
deriving DecidableEq, Repr

/-- `currentSchema`: the in-flight attempt record. -/
structure CurrentAttempt where
  «by» : PlayerKey
  setVideoPath : Option String
  responseVideoPath : Option String
deriving DecidableEq, Repr

/-- `historyEntrySchema`. -/
structure HistoryEntry where
  «by» : PlayerKey
  setPath : Option String
  respPath : Option String
  result : HistResult
  ts : Nat
deriving DecidableEq, Repr

/-- The `players` map: slot `A` required, slot `B` nullable. -/
structure PlayersMap where
  A : PlayerState
  B : Option PlayerState
deriving DecidableEq, Repr

/-- `gameSchema`: the root game document. -/
structure GameDoc where
  code : String
  turn : PlayerKey
  phase : Phase
  winner : Option PlayerKey
  players : PlayersMap
  current : CurrentAttempt
  history : List HistoryEntry
  createdAt : Nat
  updatedAt : Nat
deriving DecidableEq, Repr

/-- Firebase `HttpsError` status codes used by the functions. -/
inductive ErrCode
  | unauthenticated
  | invalidArgument
  | failedPrecondition
  | permissionDenied
  | notFound
  | alreadyExists
  | internal
  | resourceExhausted
deriving DecidableEq, Repr

/-- An `HttpsError`: status code plus human-readable message. -/
structure Err where
  code : ErrCode
  msg : String
deriving DecidableEq, Repr

/-- `lettersSequence = ['S', 'K', '8']` from `schema.ts`. -/
def lettersSequence : List String := ["S", "K", "8"]

/-- `getPlayerKey(game, uid)`: resolve the caller to a slot or throw
`permission-denied`. -/
def getPlayerKey (game : GameDoc) (uid : String) : Except Err PlayerKey :=
  if game.players.A.uid = uid then .ok .A
  else
    match game.players.B with
    | some b =>
      if b.uid = uid then .ok .B
      else .error ⟨.permissionDenied, "You are not a participant in this game."⟩
    | none => .error ⟨.permissionDenied, "You are not a participant in this game."⟩

/-- `getOpponent(key)`. -/
def getOpponent : PlayerKey → PlayerKey
  | .A => .B
  | .B => .A

/-- Clip kind parameter of `validateStoragePath`. -/
inductive ClipKind
  | set
  | response
deriving DecidableEq, Repr

/-- Trim leading and trailing whitespace from a character list
(JavaScript `String.prototype.trim`). -/
def trimChars (l : List Char) : List Char :=
  ((l.dropWhile Char.isWhitespace).reverse.dropWhile Char.isWhitespace).reverse

/-- JavaScript `s.trim()`. -/
def jsTrim (s : String) : String := ⟨trimChars s.data⟩

/-- JavaScript `s.startsWith(pre)`. -/
def jsStartsWith (pre s : String) : Bool := pre.data.isPrefixOf s.data

/-- Does the character list contain two consecutive dots? -/
def hasDotDotChars : List Char → Bool
  | [] => false
  | [_] => false
  | a :: b :: rest => (a = '.' && b = '.') || hasDotDotChars (b :: rest)

/-- JavaScript `s.includes('..')`. -/
def hasDotDot (s : String) : Bool := hasDotDotChars s.data

/-- Split a character list at every occurrence of the separator
character, keeping empty pieces (JavaScript `String.prototype.split`
with a single-character separator). -/
def splitCharAux (c : Char) : List Char → List Char → List (List Char)
  | [], acc => [acc.reverse]
  | x :: xs, acc =>
    if x = c then acc.reverse :: splitCharAux c xs []
    else splitCharAux c xs (x :: acc)

/-- JavaScript `s.split(c)` for a one-character separator. -/
def jsSplitChar (c : Char) (s : String) : List String :=
  (splitCharAux c s.data []).map String.mk

/-- JavaScript `s.toLowerCase()` (ASCII, which is all the code compares). -/
def jsToLower (s : String) : String := ⟨s.data.map Char.toLower⟩

/-- The file-extension allowlist of `validateStoragePath`. -/
def allowedExtensions : List String := ["mp4", "mov", "webm"]

/-- The folder name `validateStoragePath` requires for each clip kind. -/
def categoryFolder : ClipKind → String
  | .set => "set"
  | .response => "response"

/-- `validateStoragePath(gameId, path, kind)`: syntactic validation of a
submitted clip reference; returns the trimmed path or throws
`invalid-argument`. -/
def validateStoragePath (gameId path : String) (kind : ClipKind) : Except Err String :=
  let trimmed := jsTrim path
  if ¬ (jsStartsWith ("games/" ++ gameId ++ "/") trimmed = true) then
    .error ⟨.invalidArgument, "Storage path must be scoped to the game."⟩
  else if hasDotDot trimmed then
    .error ⟨.invalidArgument, "Storage path contains invalid segments."⟩
  else
    let segments := jsSplitChar '/' trimmed
    if segments.length < 4 then
      .error ⟨.invalidArgument, "Storage path is incomplete."⟩
    else if ¬ (segments.get? 0 = some "games" ∧ segments.get? 1 = some gameId) then
      .error ⟨.invalidArgument, "Storage path mismatch."⟩
    else if kind = .set ∧ segments.get? 2 ≠ some "set" then
      .error ⟨.invalidArgument, "Set clips must be saved under the set folder."⟩
    else if kind = .response ∧ segments.get? 2 ≠ some "response" then
      .error ⟨.invalidArgument, "Response clips must be saved under the response folder."⟩
    else
      match (jsSplitChar '.' trimmed).getLast? with
      | none => .error ⟨.invalidArgument, "Unsupported video type."⟩
      | some ext =>
        if jsToLower ext = "" ∨ ¬ allowedExtensions.contains (jsToLower ext) then
          .error ⟨.invalidArgument, "Unsupported video type."⟩
        else .ok trimmed

/-- Result record of `nextLetters`. -/
structure NextLettersResult where
  value : String
  completed : Bool
deriving DecidableEq, Repr

/-- `nextLetters(current)`: advance one penalty letter along
`lettersSequence`. -/
def nextLetters (current : String) : NextLettersResult :=
  let l0 := lettersSequence.getD 0 ""
  let l1 := lettersSequence.getD 1 ""
  let l2 := lettersSequence.getD 2 ""
  if current = "" then ⟨l0, false⟩
  else if current = l0 then ⟨l0 ++ l1, false⟩
  else if current = l0 ++ l1 then ⟨l0 ++ l1 ++ l2, true⟩
  else ⟨current, true⟩

/-- `data.players[key]?.letters ?? ''`. -/
def playerLetters (players : PlayersMap) : PlayerKey → String
  | .A => players.A.letters
  | .B =>
    match players.B with
    | some b => b.letters
    | none => ""

/-- The Firestore nested-field update `players.<key>.letters = v` (the
handlers only issue it for an occupied slot; on an empty slot `B` we keep
the map unchanged, which is unreachable through the handlers anyway). -/
def setLetters (players : PlayersMap) (k : PlayerKey) (v : String) : PlayersMap :=
  match k with
  | .A => { players with A := { players.A with letters := v } }
  | .B =>
    match players.B with
    | some b => { players with B := some { b with letters := v } }
    | none => players

/-- `createGameImpl`: the freshly written game document (join code and
document id generation are external). -/
def createGameImpl (uid name code : String) (now : Nat) : GameDoc :=
  { code := code
    turn := .A
    phase := .SET_RECORD
    winner := none
    players := ⟨⟨uid, name, ""⟩, none⟩
    current := ⟨.A, none, none⟩
    history := []
    createdAt := now
    updatedAt := now }

/-- `joinGameImpl` transaction body, applied to the game found by code. -/
def joinGameImpl (game : GameDoc) (uid name : String) (now : Nat) : Except Err GameDoc :=
  if game.players.A.uid = uid then
    .error ⟨.failedPrecondition, "You already created this game."⟩
  else
    match game.players.B with
    | some _ => .error ⟨.alreadyExists, "Game is already full."⟩
    | none =>
      .ok { game with
              players := ⟨game.players.A, some ⟨uid, name, ""⟩⟩
              updatedAt := now }

/-- `submitSetClipImpl` transaction body. -/
def submitSetClipImpl (gameId : String) (game : GameDoc) (uid storagePath : String)
    (now : Nat) : Except Err GameDoc :=
  match getPlayerKey game uid with
  | .error e => .error e
  | .ok playerKey =>
    match game.players.B with
    | none => .error ⟨.failedPrecondition, "Waiting for an opponent to join."⟩
    | some _ =>
      if game.phase ≠ .SET_RECORD ∨ game.turn ≠ playerKey then
        .error ⟨.failedPrecondition, "You cannot submit a set clip right now."⟩
      else if game.current.setVideoPath.isSome then
        .error ⟨.failedPrecondition, "Set clip already submitted."⟩
      else
        match validateStoragePath gameId storagePath .set with
        | .error e => .error e
        | .ok path =>
          .ok { game with
                  current := ⟨playerKey, some path, none⟩
                  phase := .SET_JUDGE
                  updatedAt := now }

/-- `judgeSetImpl` transaction body. -/
def judgeSetImpl (game : GameDoc) (uid : String) (approve : Bool) (now : Nat) :
    Except Err GameDoc :=
  let setterKey := game.current.«by»
  match getPlayerKey game uid with
  | .error e => .error e
  | .ok callerKey =>
    if callerKey ≠ getOpponent setterKey then
      .error ⟨.permissionDenied, "Only the opponent can judge the set."⟩
    else if game.phase ≠ .SET_JUDGE then
      .error ⟨.failedPrecondition, "Not awaiting set approval."⟩
    else
      match game.current.setVideoPath with
      | none => .error ⟨.failedPrecondition, "No set clip to judge."⟩
      | some setPath =>
        if ¬ approve then
          .ok { game with
                  history := game.history ++ [⟨setterKey, some setPath, none, .declined_set, now⟩]
                  phase := .SET_RECORD
                  turn := setterKey
                  current := ⟨setterKey, none, none⟩
                  updatedAt := now }
        else
          .ok { game with
                  history := game.history ++ [⟨setterKey, some setPath, none, .approved_set, now⟩]
                  phase := .RESP_RECORD
                  turn := setterKey
                  current := ⟨setterKey, some setPath, none⟩
                  updatedAt := now }

/-- `submitRespClipImpl` transaction body. -/
def submitRespClipImpl (gameId : String) (game : GameDoc) (uid storagePath : String)
    (now : Nat) : Except Err GameDoc :=
  let setterKey := game.current.«by»
  match getPlayerKey game uid with
  | .error e => .error e
  | .ok callerKey =>
    if callerKey ≠ getOpponent setterKey then
      .error ⟨.permissionDenied, "Only the responder can submit a clip."⟩
    else if game.phase ≠ .RESP_RECORD then
      .error ⟨.failedPrecondition, "Not awaiting a response clip."⟩
    else if game.current.responseVideoPath.isSome then
      .error ⟨.failedPrecondition, "Response already submitted."⟩
    else
      match validateStoragePath gameId storagePath .response with
      | .error e => .error e
      | .ok path =>
        .ok { game with
                current := ⟨setterKey, game.current.setVideoPath, some path⟩
                phase := .RESP_JUDGE
                updatedAt := now }

/-- `judgeRespImpl` transaction body. -/
def judgeRespImpl (game : GameDoc) (uid : String) (approve : Bool) (now : Nat) :
    Except Err GameDoc :=
  let setterKey := game.current.«by»
  match getPlayerKey game uid with
  | .error e => .error e
  | .ok callerKey =>
    if callerKey ≠ setterKey then
      .error ⟨.permissionDenied, "Only the setter can judge the response."⟩
    else if game.phase ≠ .RESP_JUDGE then
      .error ⟨.failedPrecondition, "Not awaiting response judgement."⟩
    else
      match game.current.setVideoPath, game.current.responseVideoPath with
      | some setPath, some respPath =>
        let responderKey := getOpponent setterKey
        match game.history.getLast? with
        | none => .error ⟨.failedPrecondition, "Set approval record missing."⟩
        | some lastEntry =>
          if lastEntry.result ≠ .approved_set then
            .error ⟨.failedPrecondition, "Set approval record missing."⟩
          else
            let newEntry : HistoryEntry :=
              ⟨lastEntry.«by», some setPath, some respPath,
                if approve then .landed else .failed, now⟩
            let history := game.history.set (game.history.length - 1) newEntry
            if ¬ approve then
              let res := nextLetters (playerLetters game.players responderKey)
              .ok { game with
                      history := history
                      phase := .SET_RECORD
                      turn := responderKey
                      current := ⟨responderKey, none, none⟩
                      players := setLetters game.players responderKey res.value
                      winner := if res.completed then some setterKey else game.winner
                      updatedAt := now }
            else
              .ok { game with
                      history := history
                      phase := .SET_RECORD
                      turn := responderKey
                      current := ⟨responderKey, none, none⟩
                      updatedAt := now }
      | _, _ => .error ⟨.failedPrecondition, "Missing clips to judge."⟩

/-- `selfFailSetImpl` transaction body. -/
def selfFailSetImpl (game : GameDoc) (uid : String) (now : Nat) : Except Err GameDoc :=
  match getPlayerKey game uid with
  | .error e => .error e
  | .ok playerKey =>
    if game.phase ≠ .SET_RECORD ∨ game.turn ≠ playerKey then
      .error ⟨.failedPrecondition, "Self fail is only available during your set."⟩
    else
      let opponent := getOpponent playerKey
      .ok { game with
              history := game.history ++ [⟨playerKey, none, none, .failed, now⟩]
              phase := .SET_RECORD
              turn := opponent
              current := ⟨opponent, none, none⟩
              updatedAt := now }

/-- `selfFailRespImpl` transaction body. -/
def selfFailRespImpl (game : GameDoc) (uid : String) (now : Nat) : Except Err GameDoc :=
  let setterKey := game.current.«by»
  let responderKey := getOpponent setterKey
  match getPlayerKey game uid with
  | .error e => .error e
  | .ok callerKey =>
    if callerKey ≠ responderKey then
      .error ⟨.permissionDenied, "Only the responder can self-fail."⟩
    else if game.phase ≠ .RESP_RECORD then
      .error ⟨.failedPrecondition, "Self fail is only available while recording a response."⟩
    else
      match game.history.getLast? with
      | none => .error ⟨.failedPrecondition, "Set approval record missing."⟩
      | some lastEntry =>
        if lastEntry.result ≠ .approved_set then
          .error ⟨.failedPrecondition, "Set approval record missing."⟩
        else
          let newEntry : HistoryEntry :=
            ⟨setterKey, game.current.setVideoPath, none, .failed, now⟩
          let history := game.history.set (game.history.length - 1) newEntry
          let res := nextLetters (playerLetters game.players responderKey)
          .ok { game with
                  history := history
                  phase := .SET_RECORD
                  turn := responderKey
                  current := ⟨responderKey, none, none⟩
                  players := setLetters game.players responderKey res.value
                  winner := if res.completed then some setterKey else game.winner
                  updatedAt := now }

/-- A gameplay request against an existing game. -/
inductive Action
  | joinGame (uid name : String)
  | submitSetClip (uid storagePath : String)
  | judgeSet (uid : String) (approve : Bool)
  | submitRespClip (uid storagePath : String)
  | judgeResp (uid : String) (approve : Bool)
  | selfFailSet (uid : String)
  | selfFailResp (uid : String)
deriving DecidableEq, Repr

/-- Dispatch one action against a loaded game document. -/
def step (gameId : String) (game : GameDoc) (a : Action) (now : Nat) : Except Err GameDoc :=
  match a with
  | .joinGame uid name => joinGameImpl game uid name now
  | .submitSetClip uid p => submitSetClipImpl gameId game uid p now
  | .judgeSet uid approve => judgeSetImpl game uid approve now
  | .submitRespClip uid p => submitRespClipImpl gameId game uid p now
  | .judgeResp uid approve => judgeRespImpl game uid approve now
  | .selfFailSet uid => selfFailSetImpl game uid now
  | .selfFailResp uid => selfFailRespImpl game uid now

/-- Run a list of timestamped actions, stopping at the first rejection. -/
def runActions (gameId : String) (game : GameDoc) : List (Action × Nat) → Except Err GameDoc
  | [] => .ok game
  | (a, t) :: rest =>
    match step gameId game a t with
    | .ok g' => runActions gameId g' rest
    | .error e => .error e

/-- Is every stored letters value one of the schema's four literals
(`''`, `'S'`, `'SK'`, `'SK8'`)? -/
def lettersValid (g : GameDoc) : Bool :=
  (g.players.A.letters = "" || g.players.A.letters = "S" ||
    g.players.A.letters = "SK" || g.players.A.letters = "SK8") &&
  (match g.players.B with
   | some b => b.letters = "" || b.letters = "S" || b.letters = "SK" || b.letters = "SK8"
   | none => true)

/-- A freshly created game: Alice (uid `a`) creates game `g` at time 0. -/
def gameStart : GameDoc := createGameImpl "a" "Alice" "AAAAAA" 0

/-- The spec's set-approve-respond-decline scenario: Bob joins, Alice
submits a set clip, Bob approves, Bob submits a response clip, Alice
declines the response. -/
def c3script : List (Action × Nat) :=
  [ (.joinGame "b" "Bob", 1),
    (.submitSetClip "a" "games/g/set/alice.mp4", 2),
    (.judgeSet "b" true, 3),
    (.submitRespClip "b" "games/g/response/bob.webm", 4),
    (.judgeResp "a" false, 5) ]

/-- The game document produced by `c3script`. -/
def c3Final : GameDoc := ((runActions "g" gameStart c3script).toOption).getD gameStart

/-- Bob joins, then Bob fails three responses in a row (set clip, set
approved, responder self-fails; the turn is handed back between rounds
with a setter self-fail), driving Bob's letters to `SK8` and setting
`winner := A`. -/
def scriptToTerminal : List (Action × Nat) :=
  [ (.joinGame "b" "Bob", 1),
    (.submitSetClip "a" "games/g/set/s1.mp4", 2),
    (.judgeSet "b" true, 3),
    (.selfFailResp "b", 4),
    (.selfFailSet "b", 5),
    (.submitSetClip "a" "games/g/set/s2.mp4", 6),
    (.judgeSet "b" true, 7),
    (.selfFailResp "b", 8),
    (.selfFailSet "b", 9),
    (.submitSetClip "a" "games/g/set/s3.mp4", 10),
    (.judgeSet "b" true, 11),
    (.selfFailResp "b", 12) ]

/-- The terminal game document reached by `scriptToTerminal`
(`winner = some A`). -/
def terminalGame : GameDoc :=
  ((runActions "g" gameStart scriptToTerminal).toOption).getD gameStart

/-- The state after the losing player self-fails a set in the terminal
game — the action is accepted, so this differs from `terminalGame`. -/
def afterTerminalGame : GameDoc :=
  ((step "g" terminalGame (.selfFailSet "b") 100).toOption).getD gameStart

/-- Continuation after `scriptToTerminal`: now Alice fails three
responses in a row, driving her letters to `SK8` and overwriting
`winner` with `B`. -/
def scriptOverturn : List (Action × Nat) :=
  [ (.submitSetClip "b" "games/g/set/t1.mp4", 13),
    (.judgeSet "a" true, 14),
    (.selfFailResp "a", 15),
    (.selfFailSet "a", 16),
    (.submitSetClip "b" "games/g/set/t2.mp4", 17),
    (.judgeSet "a" true, 18),
    (.selfFailResp "a", 19),
    (.selfFailSet "a", 20),
    (.submitSetClip "b" "games/g/set/t3.mp4", 21),
    (.judgeSet "a" true, 22),
    (.selfFailResp "a", 23) ]

/-- The game document reached by continuing past the terminal state:
its `winner` is `some B`, though it was `some A` in `terminalGame`. -/
def overturnedGame : GameDoc :=
  ((runActions "g" terminalGame scriptOverturn).toOption).getD gameStart

/-- Alice creates and submits a set clip: the resulting state has
`current.setVideoPath` populated and phase `SET_JUDGE`. -/
def c4script : List (Action × Nat) :=
  [ (.joinGame "b" "Bob", 1),
    (.submitSetClip "a" "games/g/set/first.mp4", 2) ]

/-- The state with a set clip already submitted. -/
def c4Game : GameDoc := ((runActions "g" gameStart c4script).toOption).getD gameStart

/-- A schema-valid document in phase `SET_RECORD` with a set clip
already present (not reachable through the handlers, which always move
to `SET_JUDGE` on submission, but allowed by `gameSchema`). -/
def c4StrayGame : GameDoc :=
  { code := "AAAAAA"
    turn := .A
    phase := .SET_RECORD
    winner := none
    players := ⟨⟨"a", "Alice", ""⟩, some ⟨"b", "Bob", ""⟩⟩
    current := ⟨.A, some "games/g/set/old.mp4", none⟩
    history := []
    createdAt := 0
    updatedAt := 0 }

/-- A schema-valid document in phase `RESP_JUDGE` with both clips
present but an empty history: the data-integrity guard of
`judgeRespImpl` fires on it. -/
def c5Game : GameDoc :=
  { code := "AAAAAA"
    turn := .A
    phase := .RESP_JUDGE
    winner := none
    players := ⟨⟨"a", "Alice", ""⟩, some ⟨"b", "Bob", ""⟩⟩
    current := ⟨.A, some "games/g/set/s.mp4", some "games/g/response/r.mp4"⟩
    history := []
    createdAt := 0
    updatedAt := 0 }

/-- The state one action before `terminalGame`: Bob's letters are `SK`
and the final `selfFailResp` has not yet happened. -/
def preTerminalGame : GameDoc :=
  ((runActions "g" gameStart (scriptToTerminal.take 11)).toOption).getD gameStart

/-- The state after Alice self-fails her first set in a fresh game. -/
def afterStartGame : GameDoc :=
  ((step "g" gameStart (.selfFailSet "a") 3).toOption).getD gameStart

/-- The fresh game after Bob joins. -/
def joinedGame : GameDoc :=
  ((joinGameImpl gameStart "b" "Bob" 7).toOption).getD gameStart

/-- Valid letters values: each stored letters string is one of the four
schema literals. -/
lemma playerLetters_mem (g : GameDoc) (k : PlayerKey) (hv : lettersValid g = true) :
    playerLetters g.players k = "" ∨ playerLetters g.players k = "S" ∨
    playerLetters g.players k = "SK" ∨ playerLetters g.players k = "SK8" := by
  unfold lettersValid at hv
  rw [Bool.and_eq_true] at hv
  obtain ⟨hA, hB⟩ := hv
  cases k
  · simp only [Bool.or_eq_true, decide_eq_true_eq] at hA
    simp only [playerLetters]
    tauto
  · cases hBv : g.players.B with
    | none => simp [playerLetters, hBv]
    | some b =>
      rw [hBv] at hB
      simp only [Bool.or_eq_true, decide_eq_true_eq] at hB
      simp only [playerLetters, hBv]
      tauto

/-- On schema-valid letters, a completed `nextLetters` step always
produces the full penalty word. -/
lemma nextLetters_completed_valid (s : String)
    (hs : s = "" ∨ s = "S" ∨ s = "SK" ∨ s = "SK8")
    (hc : (nextLetters s).completed = true) : (nextLetters s).value = "SK8" := by
  rcases hs with rfl | rfl | rfl | rfl
  · exact absurd hc (by decide)
  · exact absurd hc (by decide)
  · decide
  · decide

/-- Reading back the letters written into slot A. -/
lemma playerLetters_setLetters_A (pl : PlayersMap) (v : String) :
    playerLetters (setLetters pl .A v) .A = v := rfl

/-- Reading back the letters written into an occupied slot B. -/
lemma playerLetters_setLetters_B (pl : PlayersMap) (b : PlayerState) (v : String)
    (hB : pl.B = some b) :
    playerLetters (setLetters pl .B v) .B = v := by
  simp [playerLetters, setLetters, hB]

/-- Unfolding `nextLetters` to literal prefixes of the penalty word. -/
lemma nextLetters_eq (s : String) :
    nextLetters s =
      if s = "" then ⟨"S", false⟩
      else if s = "S" then ⟨"SK", false⟩
      else if s = "SK" then ⟨"SK8", true⟩
      else ⟨s, true⟩ := rfl

/-- Shape of every accepted clip reference: an `ok` result of
`validateStoragePath` is the trimmed input, lies under
`games/<gameId>/<category>/`, contains no `..`, and carries an
allowlisted extension. -/
lemma validateStoragePath_ok (gameId path : String) (kind : ClipKind) (t : String)
    (h : validateStoragePath gameId path kind = .ok t) :
    t = jsTrim path ∧
    jsStartsWith ("games/" ++ gameId ++ "/") t = true ∧
    hasDotDot t = false ∧
    (jsSplitChar '/' t).get? 2 = some (categoryFolder kind) ∧
    ∃ ext, (jsSplitChar '.' t).getLast? = some ext ∧
      allowedExtensions.contains (jsToLower ext) = true := by
  unfold validateStoragePath at h
  dsimp only at h
  by_cases h1 : ¬ jsStartsWith ("games/" ++ gameId ++ "/") (jsTrim path) = true
  · rw [if_pos h1] at h
    exact Except.noConfusion h
  rw [if_neg h1] at h
  by_cases h2 : hasDotDot (jsTrim path) = true
  · rw [if_pos h2] at h
    exact Except.noConfusion h
  rw [if_neg h2] at h
  by_cases h3 : (jsSplitChar '/' (jsTrim path)).length < 4
  · rw [if_pos h3] at h
    exact Except.noConfusion h
  rw [if_neg h3] at h
  by_cases h4 : ¬ ((jsSplitChar '/' (jsTrim path)).get? 0 = some "games" ∧
      (jsSplitChar '/' (jsTrim path)).get? 1 = some gameId)
  · rw [if_pos h4] at h
    exact Except.noConfusion h
  rw [if_neg h4] at h
  by_cases h5 : kind = ClipKind.set ∧ (jsSplitChar '/' (jsTrim path)).get? 2 ≠ some "set"
  · rw [if_pos h5] at h
    exact Except.noConfusion h
  rw [if_neg h5] at h
  by_cases h6 : kind = ClipKind.response ∧
      (jsSplitChar '/' (jsTrim path)).get? 2 ≠ some "response"
  · rw [if_pos h6] at h
    exact Except.noConfusion h
  rw [if_neg h6] at h
  rcases hL : (jsSplitChar '.' (jsTrim path)).getLast? with _ | extv
  · rw [hL] at h
    exact Except.noConfusion h
  rw [hL] at h
  dsimp only at h
  by_cases h7 : jsToLower extv = "" ∨ ¬ allowedExtensions.contains (jsToLower extv) = true
  · rw [if_pos h7] at h
    exact Except.noConfusion h
  rw [if_neg h7] at h
  injection h with h
  subst h
  push_neg at h7
  refine ⟨rfl, not_not.mp h1, by simpa using h2, ?_, extv, hL, h7.2⟩
  cases kind
  · simp only [categoryFolder]
    by_contra hne
    exact h5 ⟨rfl, hne⟩
  · simp only [categoryFolder]
    by_contra hne
    exact h6 ⟨rfl, hne⟩

/-- Every rejection of `validateStoragePath` carries the
`invalid-argument` status code. -/
lemma validateStoragePath_error_code (gameId path : String) (kind : ClipKind) (e : Err)
    (h : validateStoragePath gameId path kind = .error e) : e.code = .invalidArgument := by
  unfold validateStoragePath at h
  dsimp only at h
  repeat' split at h
  all_goals first
    | exact Except.noConfusion h
    | (injection h with h; rw [← h])

/-- Claim C1 counterexample: a reachable terminal game (winner set to
`A` after Bob's third failed response) still accepts a gameplay action
— the losing player's `selfFailSet` goes through and changes the state,
so the game is not immutable once `winner` is set. -/
theorem c1_counterexample :
    runActions "g" gameStart scriptToTerminal = .ok terminalGame ∧
    terminalGame.winner = some .A ∧
    step "g" terminalGame (.selfFailSet "b") 100 = .ok afterTerminalGame ∧
    afterTerminalGame ≠ terminalGame :=
  ⟨rfl, rfl, rfl, by decide⟩

/-- Claim C1 (amended): none of the gameplay handlers consults the
`winner` field — whether an action is accepted is exactly the same on a
game with `winner` overwritten, so a terminal game is not frozen: its
actions are rejected only when the ordinary phase/turn/role checks
fail. -/
theorem c1_winner_not_consulted (gameId : String) (g : GameDoc) (w : Option PlayerKey)
    (a : Action) (now : Nat) :
    (step gameId { g with winner := w } a now).isOk = (step gameId g a now).isOk := by
  obtain ⟨cd, tn, ph, w0, pl, cur, hist, ca, ua⟩ := g
  cases a <;>
    dsimp only [step, joinGameImpl, submitSetClipImpl, judgeSetImpl, submitRespClipImpl,
      judgeRespImpl, selfFailSetImpl, selfFailRespImpl, getPlayerKey] <;>
    (repeat' split) <;> rfl

/-- Claim C2 counterexample: after Bob's letters complete the word the
winner is `A`, but continuing to play (the handlers never check
`winner`) drives Alice's letters to `SK8` as well and overwrites
`winner` with `B` — so `winner` is not set at most once. -/
theorem c2_counterexample :
    runActions "g" gameStart scriptToTerminal = .ok terminalGame ∧
    terminalGame.winner = some .A ∧
    runActions "g" terminalGame scriptOverturn = .ok overturnedGame ∧
    overturnedGame.winner = some .B :=
  ⟨rfl, rfl, rfl, rfl⟩

/-- Claim C2 (amended): across any accepted transition on a game with
schema-valid letters, a non-null `winner` is never cleared, and
whenever the `winner` field changes (including when it is first set) it
is set to the slot whose opponent's letters have just completed the
full penalty word; but it is not write-once — a later completion by the
other player overwrites it. -/
theorem c2_winner_evolution (gameId : String) (g g' : GameDoc) (a : Action) (now : Nat)
    (h : step gameId g a now = .ok g') (hv : lettersValid g = true) :
    (∀ w, g.winner = some w → ∃ w', g'.winner = some w') ∧
    (g'.winner ≠ g.winner →
      ∃ k, g'.winner = some k ∧ playerLetters g'.players (getOpponent k) = "SK8") := by
  cases a <;>
    dsimp only [step, joinGameImpl, submitSetClipImpl, judgeSetImpl, submitRespClipImpl,
      judgeRespImpl, selfFailSetImpl, selfFailRespImpl] at h <;>
    (repeat' split at h) <;>
    first
      | exact Except.noConfusion h
      | (injection h with h
         subst h
         exact ⟨fun w hw => ⟨w, hw⟩, fun hne => absurd rfl hne⟩)
      | (injection h with h
         subst h
         rename_i hc
         refine ⟨fun w hw => ⟨_, rfl⟩, fun _ => ⟨g.current.«by», rfl, ?_⟩⟩
         dsimp only
         have hval := nextLetters_completed_valid _
           (playerLetters_mem g (getOpponent g.current.«by») hv) hc
         rcases hk : getOpponent g.current.«by» with _ | _
         · rw [hk] at hval
           rw [playerLetters_setLetters_A]
           exact hval
         · rcases hBv : g.players.B with _ | b
           · rw [hk] at hc
             rw [show playerLetters g.players PlayerKey.B = "" from by
                simp [playerLetters, hBv]] at hc
             exact absurd hc (by decide)
           · rw [hk] at hval
             rw [playerLetters_setLetters_B _ b _ hBv]
             exact hval)

/-- Witness for C2: the final `selfFailResp` of the losing streak sets
the winner, and the new winner's opponent holds the full word. -/
theorem c2_winner_evolution_witness :
    step "g" preTerminalGame (.selfFailResp "b") 12 = .ok terminalGame ∧
    lettersValid preTerminalGame = true ∧
    (∃ k, terminalGame.winner = some k ∧
      playerLetters terminalGame.players (getOpponent k) = "SK8") := by
  have h := c2_winner_evolution "g" preTerminalGame terminalGame (.selfFailResp "b") 12
    (by rfl) (by decide)
  exact ⟨by rfl, by decide, h.2 (by decide)⟩

/-- Claim C3, evaluated on the code: after join, set submission, set
approval, response submission and a declined response, Bob's letters
are `S` and the turn is his, but the history has length 1 — the
`approved_set` entry was rewritten in place to `failed`, not appended —
although the claim (and the repository's own test) expects length 2. -/
theorem c3_scenario_eval :
    runActions "g" gameStart c3script = .ok c3Final ∧
    playerLetters c3Final.players .B = "S" ∧
    c3Final.turn = .B ∧
    c3Final.history.length = 1 ∧
    (c3Final.history.getLast?).map (fun e => e.result) = some .failed :=
  ⟨rfl, rfl, rfl, rfl, rfl⟩

/-- Claim C4 counterexample: in the reachable state right after Alice
submitted a set clip, the clip is present, yet Alice's second
`submitSetClip` fails with the phase error `You cannot submit a set
clip right now.`, not with `Set clip already submitted.` — the
`AlreadySubmitted` error is not what every caller sees. -/
theorem c4_counterexample :
    runActions "g" gameStart c4script = .ok c4Game ∧
    c4Game.current.setVideoPath.isSome = true ∧
    submitSetClipImpl "g" c4Game "a" "games/g/set/dup.mp4" 9 =
      .error ⟨.failedPrecondition, "You cannot submit a set clip right now."⟩ ∧
    (Err.mk .failedPrecondition "You cannot submit a set clip right now.") ≠
      (Err.mk .failedPrecondition "Set clip already submitted.") :=
  ⟨rfl, rfl, rfl, by decide⟩

/-- Claim C4 (amended): when `current.setClip` is present,
`submitSetClip` always fails — the stored clip is never overwritten —
but the error is `Set clip already submitted.` only for the
turn-holding participant in phase `SET_RECORD` with the opponent
joined; any earlier check that fails produces its own error instead. -/
theorem c4_clip_present_always_fails (gameId : String) (g : GameDoc) (uid p : String)
    (now : Nat) (hclip : g.current.setVideoPath.isSome = true) :
    (∃ e, submitSetClipImpl gameId g uid p now = .error e) ∧
    (getPlayerKey g uid = .ok g.turn → g.players.B.isSome = true → g.phase = .SET_RECORD →
      submitSetClipImpl gameId g uid p now =
        .error ⟨.failedPrecondition, "Set clip already submitted."⟩) := by
  constructor
  · rcases hgk : getPlayerKey g uid with e | k
    · exact ⟨e, by simp [submitSetClipImpl, hgk]⟩
    · rcases hBv : g.players.B with _ | b
      · exact ⟨⟨.failedPrecondition, "Waiting for an opponent to join."⟩,
          by simp [submitSetClipImpl, hgk, hBv]⟩
      · by_cases hpt : g.phase ≠ Phase.SET_RECORD ∨ g.turn ≠ k
        · exact ⟨⟨.failedPrecondition, "You cannot submit a set clip right now."⟩,
            by simp only [submitSetClipImpl, hgk, hBv, if_pos hpt]⟩
        · exact ⟨⟨.failedPrecondition, "Set clip already submitted."⟩,
            by simp only [submitSetClipImpl, hgk, hBv, if_neg hpt, hclip, if_pos]⟩
  · intro hgk hB hph
    rcases hBv : g.players.B with _ | b
    · rw [hBv] at hB
      exact absurd hB (by decide)
    · have hpt : ¬ (g.phase ≠ Phase.SET_RECORD ∨ g.turn ≠ g.turn) := by simp [hph]
      simp only [submitSetClipImpl, hgk, hBv, if_neg hpt, hclip, if_pos]

/-- Witness for C4: on a schema-valid `SET_RECORD` state that already
has a set clip, the turn holder does receive `Set clip already
submitted.`. -/
theorem c4_clip_present_always_fails_witness :
    c4StrayGame.current.setVideoPath.isSome = true ∧
    submitSetClipImpl "g" c4StrayGame "a" "games/g/set/dup.mp4" 9 =
      .error ⟨.failedPrecondition, "Set clip already submitted."⟩ := by
  have h := c4_clip_present_always_fails "g" c4StrayGame "a" "games/g/set/dup.mp4" 9 (by rfl)
  exact ⟨by rfl, h.2 (by rfl) (by rfl) (by rfl)⟩

/-- Claim C5 counterexample: with both clips present, the setter
judging in `RESP_JUDGE` over an empty history is rejected with status
code `failed-precondition` (message `Set approval record missing.`),
which is not the `internal` status code the claim requires. -/
theorem c5_counterexample :
    judgeRespImpl c5Game "a" false 5 =
      .error ⟨.failedPrecondition, "Set approval record missing."⟩ ∧
    (Err.mk .failedPrecondition "Set approval record missing.").code ≠ ErrCode.internal :=
  ⟨rfl, by decide⟩

/-- Claim C5 (amended): when `judgeResp` (or `selfFailResp`) passes its
role, phase and clip checks but the history is empty or its last entry
is not `approved_set`, the action is rejected with the
`failed-precondition` status code and message `Set approval record
missing.` — a precondition-style failure, not the `internal` kind. -/
theorem c5_missing_approval_rejected (g : GameDoc) (uid uidR : String) (approve : Bool)
    (now : Nat)
    (hhist : ∀ e, g.history.getLast? = some e → e.result ≠ .approved_set) :
    (getPlayerKey g uid = .ok g.current.«by» → g.phase = .RESP_JUDGE →
      g.current.setVideoPath.isSome = true → g.current.responseVideoPath.isSome = true →
      judgeRespImpl g uid approve now =
        .error ⟨.failedPrecondition, "Set approval record missing."⟩) ∧
    (getPlayerKey g uidR = .ok (getOpponent g.current.«by») → g.phase = .RESP_RECORD →
      selfFailRespImpl g uidR now =
        .error ⟨.failedPrecondition, "Set approval record missing."⟩) := by
  constructor
  · intro hgk hph hset hresp
    obtain ⟨sp, hsp⟩ := Option.isSome_iff_exists.mp hset
    obtain ⟨rp, hrp⟩ := Option.isSome_iff_exists.mp hresp
    rcases hL : g.history.getLast? with _ | e
    · simp [judgeRespImpl, hgk, hph, hsp, hrp, hL]
    · have hres := hhist e hL
      simp [judgeRespImpl, hgk, hph, hsp, hrp, hL, hres]
  · intro hgk hph
    rcases hL : g.history.getLast? with _ | e
    · simp [selfFailRespImpl, hgk, hph, hL]
    · have hres := hhist e hL
      simp [selfFailRespImpl, hgk, hph, hL, hres]

/-- Witness for C5: the guard fires on the concrete corrupted state. -/
theorem c5_missing_approval_rejected_witness :
    judgeRespImpl c5Game "a" true 5 =
      .error ⟨.failedPrecondition, "Set approval record missing."⟩ := by
  have h := c5_missing_approval_rejected c5Game "a" "b" true 5
    (fun e he => Option.noConfusion he)
  exact h.1 (by rfl) (by rfl) (by rfl) (by rfl)

/-- Claim C6: every accepted transition leaves the history at least as
long, and every entry except the last one of the pre-state is
unchanged — transitions only append, or rewrite the entry that is
currently last. -/
theorem c6_history_monotone (gameId : String) (g g' : GameDoc) (a : Action) (now : Nat)
    (h : step gameId g a now = .ok g') :
    g.history.length ≤ g'.history.length ∧
    ∀ i, i < g.history.length - 1 → g'.history[i]? = g.history[i]? := by
  cases a <;>
    dsimp only [step, joinGameImpl, submitSetClipImpl, judgeSetImpl, submitRespClipImpl,
      judgeRespImpl, selfFailSetImpl, selfFailRespImpl] at h <;>
    (repeat' split at h) <;>
    first
      | exact Except.noConfusion h
      | (injection h with h
         subst h
         refine ⟨by simp [List.length_set], fun i hi => ?_⟩
         first
           | rfl
           | exact List.getElem?_append_left (by omega)
           | exact List.getElem?_set_ne (by omega))

/-- Witness for C6: a concrete accepted self-fail keeps the history at
least as long. -/
theorem c6_history_monotone_witness :
    step "g" gameStart (.selfFailSet "a") 3 = .ok afterStartGame ∧
    gameStart.history.length ≤ afterStartGame.history.length := by
  have h := c6_history_monotone "g" gameStart afterStartGame (.selfFailSet "a") 3 (by rfl)
  exact ⟨by rfl, h.1⟩

/-- Claim C7 counterexample: on the input `SK8X` (an input beyond the
full word, which the claim covers) `nextLetters` returns the input
unchanged with `completed = true`, and that output is not a prefix of
the penalty word `SK8` — so the output is not always a prefix. -/
theorem c7_counterexample :
    nextLetters "SK8X" = ⟨"SK8X", true⟩ ∧
    jsStartsWith (nextLetters "SK8X").value "SK8" = false := by
  decide

/-- Claim C7 (amended): `nextLetters` maps each proper prefix of `SK8`
to the next longer prefix, with `completed = true` exactly from the
full word on; every input other than the three proper prefixes is
returned unchanged with `completed = true` (hence idempotence after
completion); and the output is a prefix of the penalty word whenever
the input is one of the four schema letters values — though not for
arbitrary strings. -/
theorem c7_nextLetters_spec :
    nextLetters "" = ⟨"S", false⟩ ∧
    nextLetters "S" = ⟨"SK", false⟩ ∧
    nextLetters "SK" = ⟨"SK8", true⟩ ∧
    nextLetters "SK8" = ⟨"SK8", true⟩ ∧
    (∀ s, s ≠ "" → s ≠ "S" → s ≠ "SK" → nextLetters s = ⟨s, true⟩) ∧
    (∀ s, (s = "" ∨ s = "S" ∨ s = "SK" ∨ s = "SK8") →
      jsStartsWith (nextLetters s).value "SK8" = true) ∧
    (∀ s, (nextLetters s).completed = true →
      nextLetters (nextLetters s).value = ⟨(nextLetters s).value, true⟩) := by
  refine ⟨by decide, by decide, by decide, by decide, ?_, ?_, ?_⟩
  · intro s h1 h2 h3
    rw [nextLetters_eq, if_neg h1, if_neg h2, if_neg h3]
  · intro s hs
    rcases hs with rfl | rfl | rfl | rfl <;> decide
  · intro s hc
    by_cases h1 : s = ""
    · subst h1
      exact absurd hc (by decide)
    by_cases h2 : s = "S"
    · subst h2
      exact absurd hc (by decide)
    by_cases h3 : s = "SK"
    · subst h3
      decide
    · have hv : nextLetters s = ⟨s, true⟩ := by
        rw [nextLetters_eq, if_neg h1, if_neg h2, if_neg h3]
      rw [hv]
      exact hv

/-- Witness for C7: the catch-all branch applied to the input `Q`. -/
theorem c7_nextLetters_spec_witness :
    ("Q" ≠ "" ∧ "Q" ≠ "S" ∧ "Q" ≠ "SK") ∧ nextLetters "Q" = ⟨"Q", true⟩ :=
  ⟨by decide, c7_nextLetters_spec.2.2.2.2.1 "Q" (by decide) (by decide) (by decide)⟩

/-- Claim C8: an accepted clip reference is always the trimmed input,
scoped under `games/<gameId>/` with the correct category folder as its
third path segment, free of `..`, and carrying an allowlisted video
extension; every rejection — in particular any out-of-namespace,
traversal-containing or wrongly-extended reference — carries the
`invalid-argument` status code. -/
theorem c8_validateStoragePath_spec (gameId path : String) (kind : ClipKind) :
    (∀ t, validateStoragePath gameId path kind = .ok t →
      t = jsTrim path ∧
      jsStartsWith ("games/" ++ gameId ++ "/") t = true ∧
      hasDotDot t = false ∧
      (jsSplitChar '/' t).get? 2 = some (categoryFolder kind) ∧
      ∃ ext, (jsSplitChar '.' t).getLast? = some ext ∧
        allowedExtensions.contains (jsToLower ext) = true) ∧
    (∀ e, validateStoragePath gameId path kind = .error e → e.code = .invalidArgument) ∧
    ((jsStartsWith ("games/" ++ gameId ++ "/") (jsTrim path) = false ∨
      hasDotDot (jsTrim path) = true ∨
      (∀ ext, (jsSplitChar '.' (jsTrim path)).getLast? = some ext →
        allowedExtensions.contains (jsToLower ext) = false)) →
      ∃ e, validateStoragePath gameId path kind = .error e ∧
        e.code = .invalidArgument) := by
  refine ⟨fun t h => validateStoragePath_ok gameId path kind t h,
          fun e h => validateStoragePath_error_code gameId path kind e h, ?_⟩
  intro hbad
  rcases hres : validateStoragePath gameId path kind with e | t
  · exact ⟨e, rfl, validateStoragePath_error_code gameId path kind e hres⟩
  · exfalso
    obtain ⟨ht, hpre, hdots, hcat, ext, hL2, hcont⟩ :=
      validateStoragePath_ok gameId path kind t hres
    subst ht
    rcases hbad with hb | hb | hb
    · rw [hpre] at hb
      exact Bool.noConfusion hb
    · rw [hdots] at hb
      exact Bool.noConfusion hb
    · rw [hb ext hL2] at hcont
      exact Bool.noConfusion hcont

/-- Witness for C8: a well-formed set clip reference is accepted and
satisfies the scoping facts. -/
theorem c8_validateStoragePath_spec_witness :
    hasDotDot (jsTrim "games/g1/set/clip.mp4") = false ∧
    (jsSplitChar '/' (jsTrim "games/g1/set/clip.mp4")).get? 2 = some (categoryFolder .set) := by
  have h := (c8_validateStoragePath_spec "g1" "games/g1/set/clip.mp4" ClipKind.set).1
    "games/g1/set/clip.mp4" (by rfl)
  exact ⟨h.2.2.1, h.2.2.2.1⟩

/-- Claim C9: a fresh game has phase `SET_RECORD`, turn `A`, the caller
in slot A with empty letters, and slot B empty; a successful join
populates slot B with the joiner and changes nothing else except
`updatedAt`. -/
theorem c9_create_join_frame (uid name code uid2 name2 : String) (now now2 : Nat)
    (g' : GameDoc)
    (h : joinGameImpl (createGameImpl uid name code now) uid2 name2 now2 = .ok g') :
    (createGameImpl uid name code now).phase = .SET_RECORD ∧
    (createGameImpl uid name code now).turn = .A ∧
    (createGameImpl uid name code now).players.A = ⟨uid, name, ""⟩ ∧
    (createGameImpl uid name code now).players.B = none ∧
    (createGameImpl uid name code now).winner = none ∧
    g'.players.B = some ⟨uid2, name2, ""⟩ ∧
    g'.phase = (createGameImpl uid name code now).phase ∧
    g'.turn = (createGameImpl uid name code now).turn ∧
    g'.winner = (createGameImpl uid name code now).winner ∧
    g'.current = (createGameImpl uid name code now).current ∧
    g'.history = (createGameImpl uid name code now).history ∧
    g'.code = (createGameImpl uid name code now).code ∧
    g'.players.A = (createGameImpl uid name code now).players.A ∧
    g'.createdAt = (createGameImpl uid name code now).createdAt ∧
    g'.updatedAt = now2 := by
  unfold joinGameImpl createGameImpl at h
  dsimp only at h
  split at h
  · exact Except.noConfusion h
  · injection h with h
    subst h
    exact ⟨rfl, rfl, rfl, rfl, rfl, rfl, rfl, rfl, rfl, rfl, rfl, rfl, rfl, rfl, rfl⟩

/-- Witness for C9: Bob joins Alice's fresh game. -/
theorem c9_create_join_frame_witness :
    joinGameImpl (createGameImpl "a" "Alice" "AAAAAA" 0) "b" "Bob" 7 = .ok joinedGame ∧
    joinedGame.players.B = some ⟨"b", "Bob", ""⟩ ∧
    joinedGame.turn = (createGameImpl "a" "Alice" "AAAAAA" 0).turn := by
  have h := c9_create_join_frame "a" "Alice" "AAAAAA" "b" "Bob" 0 7 joinedGame (by rfl)
  exact ⟨by rfl, h.2.2.2.2.2.1, h.2.2.2.2.2.2.2.1⟩

/-- Claim C10: with slot B still empty, the turn holder's `selfFailSet`
is accepted — it has no opponent-joined check — appending a `failed`
entry and handing turn and `current.by` to the unoccupied slot B, while
`submitSetClip` on the same state is rejected with the waiting-for-
opponent error. -/
theorem c10_selfFailSet_no_opponent (gameId : String) (g : GameDoc) (uid p : String)
    (now : Nat) (hB : g.players.B = none) (hphase : g.phase = .SET_RECORD)
    (hturn : g.turn = .A) (huid : g.players.A.uid = uid) :
    selfFailSetImpl g uid now = .ok { g with
        history := g.history ++ [⟨.A, none, none, .failed, now⟩],
        phase := .SET_RECORD, turn := .B, current := ⟨.B, none, none⟩,
        updatedAt := now } ∧
    submitSetClipImpl gameId g uid p now =
      .error ⟨.failedPrecondition, "Waiting for an opponent to join."⟩ := by
  have hgk : getPlayerKey g uid = .ok .A := by
    simp [getPlayerKey, huid]
  constructor
  · have hpt : ¬ (g.phase ≠ Phase.SET_RECORD ∨ g.turn ≠ PlayerKey.A) := by
      simp [hphase, hturn]
    simp [selfFailSetImpl, hgk, hpt, getOpponent]
  · simp [submitSetClipImpl, hgk, hB]

/-- Witness for C10: Alice self-fails her set before Bob has joined. -/
theorem c10_selfFailSet_no_opponent_witness :
    gameStart.players.B = none ∧
    selfFailSetImpl gameStart "a" 3 = .ok { gameStart with
      history := gameStart.history ++ [⟨.A, none, none, .failed, 3⟩],
      phase := .SET_RECORD, turn := .B, current := ⟨.B, none, none⟩,
      updatedAt := 3 } := by
  have h := c10_selfFailSet_no_opponent "g" gameStart "a" "games/g/set/x.mp4" 3
    (by rfl) (by rfl) (by rfl) (by rfl)
  exact ⟨by rfl, h.1⟩

end SkateHubba
